import Mathlib

/-!
# Verification of the IoT BT Mesh Moisture Sensor event core

Shallow embedding of the event-driven core of the Bluetooth-mesh soil-moisture
sensor firmware:

* the Moisture Server module (`moistsrv_module.c`): persisted alarm settings,
  debounced save, lux-table threshold-set requests, periodic measurement and
  publication, LPN friendship lifecycle and connection counting;
* the mesh connection module (`meshconn_module.c`): the provisioning state
  machine, the OOB blink indicator machine and the connection-handle slot.

Handlers are modelled as pure functions from module state and an incoming
event to the new module state together with the list of externally visible
actions (BGAPI commands, LCD writes, timer arms, publications) the handler
performs, in the order the C code performs them.  LCD message texts are
elided (only the target row is recorded) and the error-path toasts that
depend on BGAPI result codes of publish/update/response calls are elided,
since all verified properties concern state and command traffic, not
display text.  Machine integers are modelled as `Nat` with explicit
`% 256` wrap-around where the C type is `uint8_t`.
-/

namespace MoistureSensor

/-! ## Shared constants (headers)

From `moistsrv_module.h`, `meshconn_module.h`, `utils_bt.h`,
`user_signals_bt.h` and module-local defines.  Soft-timer counts are the
values of `GET_SOFT_TIMER_COUNTS(x) = (uint32_t)(x * 32768.0f)` computed
on the constant arguments appearing in the source. -/

def MOIST_ALARM_FLAG : Nat := 0x7FFF

def DEFAULT_ALARM_LEVEL : Nat := 0x7FFF

def ALARM_FLASH_KEY : Nat := 0x4001

def LPN_QUEUE_DEPTH : Nat := 4

def LPN_POLL_TIMEOUT : Nat := 30000

def SAVE_TIMER_HANDLE : Nat := 10

def TOAST_TIMER_HANDLE : Nat := 11

def BEFRIEND_TIMER_HANDLE : Nat := 12

def MEASUREMENT_TIMER_HANDLE : Nat := 13

def BLINK_TIMER_HANDLE : Nat := 0

def REBOOT_TIMER_HANDLE : Nat := 1

/-- `GET_SOFT_TIMER_COUNTS(SAVE_DELAY)`, `SAVE_DELAY = 10.000 s`. -/
def SAVE_COUNTS : Nat := 327680

/-- `GET_SOFT_TIMER_COUNTS(TOAST_DURATION)`, `TOAST_DURATION = 3.000 s`. -/
def TOAST_COUNTS : Nat := 98304

/-- `GET_SOFT_TIMER_COUNTS(BEFRIEND_RETRY_DELAY)`, `BEFRIEND_RETRY_DELAY = 19.000 s`. -/
def BEFRIEND_COUNTS : Nat := 622592

/-- `GET_SOFT_TIMER_COUNTS(MEASUREMENT_TIME)`, `MEASUREMENT_TIME = 5.000 s`. -/
def MEASUREMENT_COUNTS : Nat := 163840

/-- `BLINK_ON_COUNTS`: `(uint32_t)(0.3 * 32768.0f) = 9830`. -/
def BLINK_ON_COUNTS : Nat := 9830

/-- `BLINK_OFF_COUNTS`: `(uint32_t)((1.0 * 0.3) * 32768.0f) = 9830`. -/
def BLINK_OFF_COUNTS : Nat := 9830

/-- `BLINK_GAP_COUNTS`: `(uint32_t)((7.0 * 0.3) * 32768.0f) = 68812`. -/
def BLINK_GAP_COUNTS : Nat := 68812

/-- `REBOOT_TIME_COUNTS`: `(uint32_t)(2.0 * 32768.0f) = 65536`. -/
def REBOOT_TIME_COUNTS : Nat := 65536

/-- `SOFT_TIMER_STOP` (a zero count stops the timer). -/
def SOFT_TIMER_STOP : Nat := 0

/-- Bit 0 of `request_flags` demands a synchronous response (SDK `mesh_lib`). -/
def MESH_REQUEST_FLAG_RESPONSE_REQUIRED : Nat := 1

/-- `CORE_EVT_BOOT = 1 << 4` (`user_signals_bt.h`). -/
def CORE_EVT_BOOT : Nat := 16

/-- `CORE_EVT_POST_BOOT = 1 << 6` (`user_signals_bt.h`). -/
def CORE_EVT_POST_BOOT : Nat := 64

/-- `CORE_EVT_NETWORK_READY = 1 << 7` (`user_signals_bt.h`). -/
def CORE_EVT_NETWORK_READY : Nat := 128

/-! ## External actions

Externally visible side effects a handler can perform, in source order.
LCD writes record the row only; message strings are elided. -/

/-- Logical LCD row identities (`LCD_ROW_*`). -/
inductive LcdRow where
  | action
  | connection
  | tempvalue
  | btaddr1
  | btaddr2
  | clientaddr
  | passkey
  deriving DecidableEq, Repr

/-- One externally visible side effect of a handler. -/
inductive Action where
  | lcdWrite (row : LcdRow)
  | armTimer (counts : Nat) (handle : Nat) (oneShot : Bool)
  | flashSave (key : Nat) (value : Nat)
  | flashEraseAll
  | modelUpdate (level : Nat)
  | modelPublish (level : Nat)
  | modelResponse (level : Nat)
  | meshServerInit
  | meshLibInitAndRegister
  | lpnInit
  | lpnConfigure (queueDepth : Nat) (pollTimeout : Nat)
  | lpnDeinit
  | establishFriendship
  | startSoilReading
  | ledOn
  | ledOff
  | raiseSignal (sig : Nat)
  | beaconStart
  | nodeInitOob
  | oobRsp
  | closeConnection (handle : Nat)
  | systemReset
  | pbStart
  deriving DecidableEq, Repr

/-- The levels carried by the `mesh_lib_generic_server_publish` calls in an
action list, in order. -/
def publishedLevels (acts : List Action) : List Nat :=
  acts.filterMap fun a =>
    match a with
    | .modelPublish l => some l
    | _ => none

/-! ## Moisture Server module (`moistsrv_module.c`, the documented revision)

Module state mirrors the file-scope statics: `settings.alarm_level`
(`uint16_t`), `disable_deep_sleep`, `ready` and `conn_count` (`uint8_t`). -/

structure MoistState where
  alarm_level : Nat
  disable_deep_sleep : Bool
  ready : Bool
  conn_count : Nat
  deriving DecidableEq, Repr

/-- C statics are zero-initialized; `disable_deep_sleep` and `ready` start
`false` and `conn_count` starts 0.  `settings` is zero until `_load_settings`
runs on the boot signal. -/
def moistInit : MoistState :=
  { alarm_level := 0, disable_deep_sleep := false, ready := false, conn_count := 0 }

/-- `_toast`: clear the action row, write the message, arm the toast timer. -/
def toast : List Action :=
  [.lcdWrite .action, .lcdWrite .action,
   .armTimer TOAST_COUNTS TOAST_TIMER_HANDLE true]

/-- `_save_settings`: commit the 2-byte settings record to flash. -/
def save_settings (s : MoistState) : List Action :=
  [.flashSave ALARM_FLASH_KEY s.alarm_level]

/-- `_set_alarm_level`: bail if the new level equals the stored one, otherwise
record it, toast it and arm the debounced save timer. -/
def set_alarm_level (s : MoistState) (new_level : Nat) : MoistState × List Action :=
  if new_level = s.alarm_level then (s, [])
  else
    ({ s with alarm_level := new_level },
     toast ++ [.armTimer SAVE_COUNTS SAVE_TIMER_HANDLE true])

/-- Little-endian decoding of the 2-byte persisted record
(`settings = *((persistent_data*) result->value.data)` on a little-endian
Cortex-M target). -/
def decode_le16 (bs : List Nat) : Nat :=
  bs.getD 0 0 + 256 * bs.getD 1 0

/-- `_load_settings`: start from the default; adopt the persisted record only
when the load succeeded and the record length is exactly
`sizeof(settings) = 2`; otherwise keep the default and push it to flash.
The flash contents are an input: `none` models a failed
`gecko_cmd_flash_ps_load`, `some bs` a record with bytes `bs`. -/
def load_settings (s : MoistState) (record : Option (List Nat)) :
    MoistState × List Action :=
  let sdef := { s with alarm_level := DEFAULT_ALARM_LEVEL }
  match record with
  | some bs =>
      if bs.length = 2 then ({ s with alarm_level := decode_le16 bs }, [])
      else (sdef, save_settings sdef)
  | none => (sdef, save_settings sdef)

/-- `_update_level`: hand the new level to `mesh_lib_generic_server_update`. -/
def update_level (level : Nat) : List Action :=
  [.modelUpdate level]

/-- `_publish_moisture`: update the model, then publish it. -/
def publish_moisture (level : Nat) : List Action :=
  update_level level ++ [.modelPublish level]

/-- `_finish_measurement`: read the conversion result; when strictly above
the alarm level publish the alarm sentinel first; write the wet/dry prompt;
always publish the raw measurement afterwards.  Module state is unchanged. -/
def finish_measurement (s : MoistState) (measurement : Nat) : List Action :=
  (if measurement > s.alarm_level then publish_moisture MOIST_ALARM_FLAG else [])
  ++ [.lcdWrite .tempvalue]
  ++ publish_moisture measurement

/-- Lux-index to alarm-threshold lookup table (11 `uint16_t` entries). -/
def lux_to_alarm_table : List Nat :=
  [0x0F00, 0x0E00, 0x0D00, 0xC00, 0xB00, 0xA00, 0x900, 0x800, 0x400, 0x300, 0x200]

/-- `sizeof(lux_to_alarm_table)` in bytes: 11 two-byte elements. -/
def lux_table_sizeof_bytes : Nat := 2 * lux_to_alarm_table.length

/-- `max_lux = sizeof(lux_to_alarm_table) - 1` exactly as written in the
source: a byte count minus one, not an element count minus one. -/
def max_lux : Nat := lux_table_sizeof_bytes - 1

/-- The saturation step of `_handle_client_request`:
`if (lux_level > max_lux) lux_level = max_lux;`. -/
def saturated_lux (lux_level : Nat) : Nat :=
  if lux_level > max_lux then max_lux else lux_level

/-- Kind of an incoming generic request; the handler only acts on
`mesh_generic_request_level`. -/
inductive RequestKind where
  | level
  | other
  deriving DecidableEq, Repr

/-- `_handle_client_request`: ignore non-level requests and requests carrying
the alarm sentinel; saturate the requested lux index against `max_lux`;
install the table entry through `_set_alarm_level`; when bit
`MESH_REQUEST_FLAG_RESPONSE_REQUIRED` of `request_flags` is set, respond
with the value of `settings.alarm_level` read *after* `_set_alarm_level`
ran.  A table access past the 11 elements is an out-of-bounds read in the
C code and is modelled as `none`. -/
def handle_client_request (s : MoistState) (kind : RequestKind)
    (req_level : Nat) (request_flags : Nat) :
    Option (MoistState × List Action) :=
  if kind ≠ RequestKind.level then some (s, [])
  else if req_level = MOIST_ALARM_FLAG then some (s, [])
  else
    match lux_to_alarm_table[saturated_lux req_level]? with
    | none => none
    | some tbl =>
        let r := set_alarm_level s tbl
        if request_flags &&& MESH_REQUEST_FLAG_RESPONSE_REQUIRED ≠ 0 then
          some (r.1, r.2 ++ [.modelResponse r.1.alarm_level])
        else some (r.1, r.2)

/-- `_become_lpn`: LCD note, `lpn_init`, `lpn_configure`, then `_get_friend`. -/
def get_friend : List Action :=
  [.establishFriendship, .lcdWrite .connection]

/-- `_become_lpn` (see `get_friend`). -/
def become_lpn : List Action :=
  [.lcdWrite .connection, .lpnInit, .lpnConfigure LPN_QUEUE_DEPTH LPN_POLL_TIMEOUT]
  ++ get_friend

/-- Connectivity states (`meshconn_states`, `meshconn_module.h`). -/
inductive meshconn_states where
  | init
  | booted
  | unprovisioned
  | provisioning
  | network_ready
  | error
  deriving DecidableEq, Repr

/-- The flag bits of one `gecko_evt_system_external_signal` event that the
moisture server inspects, as Booleans. -/
structure Extsignals where
  boot : Bool
  post_boot : Bool
  network_ready : Bool
  pb0 : Bool
  adc_finished : Bool
  deriving DecidableEq, Repr

/-- Events dispatched to `moistsrv_handle_events`.  External inputs consumed
inside a handler ride on the event: the flash record read by
`_load_settings` on the boot signal and the ADC conversion result read by
`_finish_measurement` on `ADC_WAIT_FINISHED`.  Client requests arrive via
`mesh_lib` dispatch of `gecko_evt_mesh_generic_server_client_request`. -/
inductive MoistEvt where
  | external_signal (sigs : Extsignals) (flash_record : Option (List Nat))
      (adc_reading : Nat)
  | client_request (kind : RequestKind) (level : Nat) (flags : Nat)
  | connection_opened
  | connection_closed
  | friendship_established
  | friendship_failed
  | friendship_terminated
  | soft_timer (handle : Nat)
  deriving DecidableEq, Repr

/-- `moistsrv_handle_events`.  `mesh_state` is the value
`meshconn_get_state()` returns while the event is handled. -/
def moistsrv_handle_events (s : MoistState) (mesh_state : meshconn_states)
    (e : MoistEvt) : Option (MoistState × List Action) :=
  match e with
  | .external_signal sigs record reading =>
      let r0 : MoistState × List Action := (s, [])
      let r1 :=
        if sigs.boot then
          let l := load_settings r0.1 record
          (l.1, r0.2 ++ l.2 ++ [Action.meshServerInit])
        else r0
      let r2 :=
        if sigs.post_boot && r1.1.disable_deep_sleep then (r1.1, r1.2 ++ toast)
        else r1
      let r3 :=
        if sigs.network_ready then
          let s3 := { r2.1 with ready := true }
          (s3, r2.2 ++ [Action.meshLibInitAndRegister,
                        Action.armTimer MEASUREMENT_COUNTS MEASUREMENT_TIMER_HANDLE false]
               ++ (if s3.disable_deep_sleep then [Action.lcdWrite LcdRow.connection]
                   else become_lpn))
        else r2
      let r4 :=
        if sigs.pb0 && (mesh_state == meshconn_states.network_ready) && r3.1.ready then
          (r3.1, r3.2 ++ toast ++ publish_moisture MOIST_ALARM_FLAG)
        else r3
      let r5 :=
        if sigs.adc_finished then (r4.1, r4.2 ++ finish_measurement r4.1 reading)
        else r4
      some r5
  | .client_request kind level flags => handle_client_request s kind level flags
  | .connection_opened =>
      some ({ s with conn_count := (s.conn_count + 1) % 256 },
            [.lpnDeinit, .lcdWrite .connection] ++ toast)
  | .connection_closed =>
      let c := (s.conn_count + 255) % 256
      some ({ s with conn_count := c },
            toast ++
            (if c = 0 then
               (if s.ready && !s.disable_deep_sleep then become_lpn
                else if s.ready && s.disable_deep_sleep then [Action.lcdWrite LcdRow.connection]
                else [])
             else []))
  | .friendship_established => some (s, toast ++ [.lcdWrite .connection])
  | .friendship_failed =>
      some (s, toast ++ [.lcdWrite .connection,
                         .armTimer BEFRIEND_COUNTS BEFRIEND_TIMER_HANDLE true])
  | .friendship_terminated => some (s, [.lcdWrite .connection] ++ toast ++ get_friend)
  | .soft_timer h =>
      if h = SAVE_TIMER_HANDLE then some (s, save_settings s)
      else if h = TOAST_TIMER_HANDLE then some (s, [.lcdWrite .action])
      else if h = BEFRIEND_TIMER_HANDLE then some (s, get_friend)
      else if h = MEASUREMENT_TIMER_HANDLE then some (s, [.startSoilReading])
      else some (s, [])

/-- The action list a moisture-server event handler produces (empty for the
out-of-bounds case that has no defined behaviour in the C code). -/
def evtActions (s : MoistState) (mesh_state : meshconn_states) (e : MoistEvt) :
    List Action :=
  match moistsrv_handle_events s mesh_state e with
  | some r => r.2
  | none => []

/-! ## Mesh connection module (`meshconn_module.c`)

Module state mirrors the file-scope statics: the blink indicator machine
(`blink_count`, `blinks_remaining` — both `uint8_t` —, `blink_state`,
`blinking`), the connectivity state `state` and the connection-handle slot
`conn_handle` (`uint8_t`). -/

structure MeshconnState where
  blink_count : Nat
  blinks_remaining : Nat
  blink_state : Bool
  blinking : Bool
  state : meshconn_states
  conn_handle : Nat
  deriving DecidableEq, Repr

/-- C statics at program start: everything zero except `state`, which is
explicitly initialized to `init`.  In particular `conn_handle` starts at 0,
not at the 0xFF "no connection" sentinel. -/
def meshconnInit : MeshconnState :=
  { blink_count := 0, blinks_remaining := 0, blink_state := false,
    blinking := false, state := .init, conn_handle := 0 }

/-- `_do_factory_reset`: erase all persisted storage, note it on the LCD,
and force the state to `unprovisioned`. -/
def do_factory_reset (s : MeshconnState) : MeshconnState × List Action :=
  ({ s with state := .unprovisioned }, [.flashEraseAll, .lcdWrite .connection])

/-- `_reset_state`: clear the blink machine, set state to `booted` and clear
the informational LCD rows.  `conn_handle` is not touched. -/
def reset_state (s : MeshconnState) : MeshconnState × List Action :=
  ({ s with blink_count := 0, blinks_remaining := 0, blink_state := false,
            blinking := false, state := .booted },
   [.lcdWrite .btaddr1, .lcdWrite .btaddr2, .lcdWrite .clientaddr,
    .lcdWrite .passkey, .lcdWrite .connection])

/-- `_start_provisioning_beacon`: start unprovisioned beaconing over GATT and
move to `unprovisioned`. -/
def start_provisioning_beacon (s : MeshconnState) : MeshconnState × List Action :=
  ({ s with state := .unprovisioned }, [.beaconStart, .lcdWrite .connection])

/-- `_stop_blinking`: clear the blinking flag, turn the LED off and stop the
blink timer (a zero-count one-shot arm). -/
def stop_blinking (s : MeshconnState) : MeshconnState × List Action :=
  ({ s with blinking := false },
   [.ledOff, .armTimer SOFT_TIMER_STOP BLINK_TIMER_HANDLE true])

/-- `_handle_blinking`: inert unless `blinking`; toggles the LED each call;
after the last pulse of a set it arms the long inter-word gap and reloads
`blinks_remaining` from `blink_count`, otherwise it arms the short pause.
`blinks_remaining` is a `uint8_t`, so its decrement wraps modulo 256. -/
def handle_blinking (s : MeshconnState) : MeshconnState × List Action :=
  if !s.blinking then (s, [])
  else if s.blink_state then
    if s.blinks_remaining = 0 then
      ({ s with blinks_remaining := s.blink_count, blink_state := false },
       [.ledOff, .armTimer BLINK_GAP_COUNTS BLINK_TIMER_HANDLE true])
    else
      ({ s with blink_state := false },
       [.ledOff, .armTimer BLINK_OFF_COUNTS BLINK_TIMER_HANDLE true])
  else
    ({ s with blinks_remaining := (s.blinks_remaining + 255) % 256,
              blink_state := true },
     [.ledOn, .armTimer BLINK_ON_COUNTS BLINK_TIMER_HANDLE true])

/-- `_start_blinking`: record the count; a count of 0 just turns the LED on
continuously (stopped only by `_stop_blinking`); otherwise prime the machine
as if at the end of an inter-blink gap, mark it active and take the first
step immediately. -/
def start_blinking (s : MeshconnState) (count : Nat) : MeshconnState × List Action :=
  let s1 := { s with blink_count := count }
  if count = 0 then (s1, [.ledOn])
  else
    handle_blinking
      { s1 with blinks_remaining := count, blink_state := false, blinking := true }

/-- `_activate_network`: move to `network_ready` and raise the
`CORE_EVT_NETWORK_READY` signal. -/
def activate_network (s : MeshconnState) : MeshconnState × List Action :=
  ({ s with state := .network_ready },
   [.raiseSignal CORE_EVT_NETWORK_READY, .lcdWrite .connection])

/-- `MESH_PROV_OOB_DISPLY_BLINK` (`mesh_utils.h`). -/
def MESH_PROV_OOB_DISPLY_BLINK : Nat := 0x00

/-- `MESH_PROV_OOB_DISPLY_NUMERIC` (`mesh_utils.h`). -/
def MESH_PROV_OOB_DISPLY_NUMERIC : Nat := 0x03

/-- Events dispatched to `meshconn_handle_events`.  `system_boot` carries
the PB0 sample read in the handler; `node_initialized` carries the
`provisioned` flag; `display_output_oob` carries the OOB action code and
the data bytes; `connection_opened` carries the stack's connection handle;
`external_signal` carries the two flag bits this module inspects. -/
inductive MeshEvt where
  | system_boot (pb0_pressed : Bool)
  | node_initialized (provisioned : Bool)
  | provisioning_started
  | static_oob_request
  | display_output_oob (output_action : Nat) (data : List Nat)
  | provisioning_failed
  | provisioned
  | node_reset
  | soft_timer (handle : Nat)
  | external_signal (boot : Bool) (network_ready : Bool)
  | connection_opened (handle : Nat)
  | connection_closed
  deriving DecidableEq, Repr

/-- `meshconn_handle_events`. -/
def meshconn_handle_events (s : MeshconnState) (e : MeshEvt) :
    MeshconnState × List Action :=
  match e with
  | .system_boot pb0_pressed =>
      let r1 := reset_state s
      if pb0_pressed then
        let r2 := do_factory_reset r1.1
        (r2.1, r1.2 ++ [Action.pbStart] ++ r2.2 ++ [Action.ledOn, Action.systemReset])
      else
        (r1.1, r1.2 ++ [Action.pbStart, Action.lcdWrite LcdRow.btaddr1, Action.nodeInitOob])
  | .node_initialized provisioned =>
      let r :=
        if provisioned then activate_network s
        else start_provisioning_beacon s
      (r.1, r.2 ++ [Action.raiseSignal CORE_EVT_BOOT])
  | .provisioning_started =>
      ({ s with state := .provisioning }, [.lcdWrite .connection, .lcdWrite .passkey])
  | .static_oob_request => (s, [.oobRsp])
  | .display_output_oob output_action data =>
      if output_action = MESH_PROV_OOB_DISPLY_BLINK then
        start_blinking s (data.getD (data.length - 1) 0)
      else if output_action = MESH_PROV_OOB_DISPLY_NUMERIC then
        (s, [.lcdWrite .passkey])
      else (s, [])
  | .provisioning_failed =>
      let r1 := stop_blinking s
      let r2 := start_provisioning_beacon r1.1
      (r2.1, [Action.lcdWrite LcdRow.passkey] ++ r1.2 ++ r2.2)
  | .provisioned =>
      let r1 := activate_network s
      let r2 := stop_blinking r1.1
      (r2.1, [Action.lcdWrite LcdRow.passkey] ++ r1.2 ++ r2.2)
  | .node_reset =>
      let r1 := do_factory_reset s
      (r1.1, r1.2 ++ [Action.lcdWrite LcdRow.connection]
        ++ (if s.conn_handle ≠ 0xFF then [Action.closeConnection s.conn_handle] else [])
        ++ [Action.armTimer REBOOT_TIME_COUNTS REBOOT_TIMER_HANDLE true])
  | .soft_timer h =>
      if h = BLINK_TIMER_HANDLE then handle_blinking s
      else if h = REBOOT_TIMER_HANDLE then (s, [.systemReset])
      else (s, [])
  | .external_signal boot network_ready =>
      (s, (if boot then [Action.raiseSignal CORE_EVT_POST_BOOT] else [])
          ++ (if network_ready then [Action.lcdWrite LcdRow.clientaddr] else []))
  | .connection_opened handle => ({ s with conn_handle := handle }, [])
  | .connection_closed => ({ s with conn_handle := 0xFF }, [])

/-- Fold a list of events through `meshconn_handle_events`, keeping only the
state. -/
def runMeshconn (s : MeshconnState) (evts : List MeshEvt) : MeshconnState :=
  evts.foldl (fun st e => (meshconn_handle_events st e).1) s

/-- Fold a list of events through `meshconn_handle_events`, concatenating
all actions in order. -/
def runMeshconnActions (s : MeshconnState) (evts : List MeshEvt) : List Action :=
  match evts with
  | [] => []
  | e :: rest =>
      let r := meshconn_handle_events s e
      r.2 ++ runMeshconnActions r.1 rest

/-! ## Connection open/close traces (moisture server side)

Infrastructure for reasoning about interleavings of
`gecko_evt_le_connection_opened` / `closed` as seen by
`moistsrv_handle_events`. -/

/-- A connection event. -/
inductive ConnEvt where
  | opened
  | closed
  deriving DecidableEq, Repr

/-- The `MoistEvt` a connection event is dispatched as. -/
def connEvtToMoist : ConnEvt → MoistEvt
  | .opened => .connection_opened
  | .closed => .connection_closed

/-- One connection event through `moistsrv_handle_events` (these events never
hit the out-of-bounds table path, so the `Option` is always `some`). -/
def stepConn (s : MoistState) (e : ConnEvt) : MoistState × List Action :=
  match moistsrv_handle_events s meshconn_states.init (connEvtToMoist e) with
  | some r => r
  | none => (s, [])

/-- Final state after a list of connection events. -/
def runConn (s : MoistState) (tr : List ConnEvt) : MoistState :=
  tr.foldl (fun st e => (stepConn st e).1) s

/-- Per-event log of a run: each event with the state after it and the
actions its handler performed. -/
def runConnLog (s : MoistState) : List ConnEvt → List (ConnEvt × MoistState × List Action)
  | [] => []
  | e :: rest =>
      let r := stepConn s e
      (e, r.1, r.2) :: runConnLog r.1 rest

/-- All actions performed along a run of connection events. -/
def connActions (s : MoistState) : List ConnEvt → List Action
  | [] => []
  | e :: rest =>
      let r := stepConn s e
      r.2 ++ connActions r.1 rest

/-- Physically valid interleavings given `c` currently open connections: a
close only ever arrives for an open connection, and at most 255 connections
(the `uint8_t` range) are ever simultaneously open. -/
def validConn (c : Nat) : List ConnEvt → Bool
  | [] => true
  | .opened :: rest => c + 1 ≤ 255 && validConn (c + 1) rest
  | .closed :: rest => 1 ≤ c && validConn (c - 1) rest

/-- Number of `opened` events in a trace. -/
def countOpens (tr : List ConnEvt) : Nat := tr.countP (fun e => e == ConnEvt.opened)

/-- Number of `closed` events in a trace. -/
def countCloses (tr : List ConnEvt) : Nat := tr.countP (fun e => e == ConnEvt.closed)

/-- Is this action the low-power-mode request (the `gecko_cmd_mesh_lpn_init`
call of `_become_lpn`)? -/
def isLpnRequest : Action → Bool
  | .lpnInit => true
  | _ => false

/-- Is this action an arm of the befriend-retry timer (any count/mode)? -/
def isBefriendArm : Action → Bool
  | .armTimer _ h _ => h == BEFRIEND_TIMER_HANDLE
  | _ => false

/-- Is this action a friendship-establishment request
(`gecko_cmd_mesh_lpn_establish_friendship`)? -/
def isFriendReq : Action → Bool
  | .establishFriendship => true
  | _ => false

/-- The external-signal event carrying exactly the `CORE_EVT_BOOT` flag,
with `record` the flash contents read by `_load_settings`. -/
def bootEvt (record : Option (List Nat)) : MoistEvt :=
  .external_signal
    { boot := true, post_boot := false, network_ready := false,
      pb0 := false, adc_finished := false }
    record 0

/-- Position of a connectivity state along the happy path
Init → Booted → Unprovisioned → Provisioning → NetworkReady. -/
def happy_ord : meshconn_states → Nat
  | .init => 0
  | .booted => 1
  | .unprovisioned => 2
  | .provisioning => 3
  | .network_ready => 4
  | .error => 5

/-- Stack contract for provisioning-lifecycle events: the boot event is
delivered once at process start (state `init`); node-initialized follows the
`mesh_node_init_oob` call issued while `booted`; provisioning only starts
while beaconing (`unprovisioned`); provisioning success/failure only arrives
while `provisioning`.  All other events may arrive in any state. -/
def validIncoming (st : meshconn_states) : MeshEvt → Bool
  | .system_boot _ => st == .init
  | .node_initialized _ => st == .booted
  | .provisioning_started => st == .unprovisioned
  | .provisioning_failed => st == .provisioning
  | .provisioned => st == .provisioning
  | _ => true

/-- No connection-closed event occurs in the trace. -/
def noCloseEvt (tr : List MeshEvt) : Bool :=
  tr.all fun e => !(e == MeshEvt.connection_closed)

/-- All connection handles delivered by the stack are ordinary `uint8_t`
handles below the 0xFF "no connection" sentinel. -/
def handlesOk (tr : List MeshEvt) : Bool :=
  tr.all fun e =>
    match e with
    | .connection_opened h => decide (h < 255)
    | _ => true

/-! ## Helper lemmas -/

/-- `_set_alarm_level` always leaves `settings.alarm_level` equal to its
argument. -/
theorem set_alarm_level_level (s : MoistState) (v : Nat) :
    (set_alarm_level s v).1.alarm_level = v := by
  unfold set_alarm_level
  split
  · simp_all
  · rfl

/-- `_set_alarm_level` never emits a model response. -/
theorem set_alarm_level_no_response (s : MoistState) (v w : Nat) :
    Action.modelResponse w ∈ (set_alarm_level s v).2 → False := by
  unfold set_alarm_level
  split <;> simp [toast]

/-- `_handle_blinking` never changes the connectivity state. -/
theorem handle_blinking_state (s : MeshconnState) :
    (handle_blinking s).1.state = s.state := by
  unfold handle_blinking
  split
  · rfl
  · split
    · split <;> rfl
    · rfl

/-- `_start_blinking` never changes the connectivity state. -/
theorem start_blinking_state (s : MeshconnState) (c : Nat) :
    (start_blinking s c).1.state = s.state := by
  unfold start_blinking
  split
  · rfl
  · rw [handle_blinking_state]

/-- `_handle_blinking` never touches the connection-handle slot. -/
theorem handle_blinking_handle (s : MeshconnState) :
    (handle_blinking s).1.conn_handle = s.conn_handle := by
  unfold handle_blinking
  split
  · rfl
  · split
    · split <;> rfl
    · rfl

/-- `_start_blinking` never touches the connection-handle slot. -/
theorem start_blinking_handle (s : MeshconnState) (c : Nat) :
    (start_blinking s c).1.conn_handle = s.conn_handle := by
  unfold start_blinking
  split
  · rfl
  · rw [handle_blinking_handle]

/-- Where each event leaves the connection-handle slot: an opened event
stores the delivered handle, a closed event stores the 0xFF sentinel, and
every other event leaves the slot alone. -/
theorem meshconn_conn_handle_after (s : MeshconnState) (e : MeshEvt) :
    (meshconn_handle_events s e).1.conn_handle =
      match e with
      | .connection_opened h => h
      | .connection_closed => 0xFF
      | _ => s.conn_handle := by
  cases e with
  | system_boot b => cases b <;> rfl
  | node_initialized p => cases p <;> rfl
  | display_output_oob a d =>
      simp only [meshconn_handle_events]
      split
      · rw [start_blinking_handle]
      · split <;> rfl
  | soft_timer h =>
      simp only [meshconn_handle_events]
      split
      · rw [handle_blinking_handle]
      · split <;> rfl
  | _ => rfl

/-- A connection event never changes `ready`. -/
theorem stepConn_ready (s : MoistState) (e : ConnEvt) :
    (stepConn s e).1.ready = s.ready := by
  cases e <;> rfl

/-- A connection event never changes `disable_deep_sleep`. -/
theorem stepConn_dds (s : MoistState) (e : ConnEvt) :
    (stepConn s e).1.disable_deep_sleep = s.disable_deep_sleep := by
  cases e <;> rfl

/-- With fewer than 255 open connections, an opened event increments the
count without wrapping. -/
theorem stepConn_opened_count (s : MoistState) (h : s.conn_count + 1 ≤ 255) :
    (stepConn s ConnEvt.opened).1.conn_count = s.conn_count + 1 := by
  show (s.conn_count + 1) % 256 = s.conn_count + 1
  omega

/-- With at least one open connection (and at most 255), a closed event
decrements the count without wrapping. -/
theorem stepConn_closed_count (s : MoistState) (h1 : 1 ≤ s.conn_count)
    (h2 : s.conn_count ≤ 255) :
    (stepConn s ConnEvt.closed).1.conn_count = s.conn_count - 1 := by
  show (s.conn_count + 255) % 256 = s.conn_count - 1
  omega

/-- The low-power request (`gecko_cmd_mesh_lpn_init` inside `_become_lpn`)
is emitted by a connection event exactly when the event is a close that
brings the count to zero while the module is `ready` and deep sleep is not
disabled. -/
theorem stepConn_lpn_iff (s : MoistState) (e : ConnEvt) :
    Action.lpnInit ∈ (stepConn s e).2 ↔
      (e = ConnEvt.closed ∧ (stepConn s e).1.conn_count = 0 ∧
       s.ready = true ∧ s.disable_deep_sleep = false) := by
  cases e with
  | opened => simp [stepConn, moistsrv_handle_events, connEvtToMoist, toast]
  | closed =>
      simp only [stepConn, moistsrv_handle_events, connEvtToMoist]
      by_cases hc : (s.conn_count + 255) % 256 = 0
      · by_cases hr : s.ready <;> by_cases hd : s.disable_deep_sleep <;>
          simp [hc, hr, hd, become_lpn, get_friend, toast]
      · simp [hc, toast]

/-! ## Claims -/

/-- C1 (amended): every finished measurement always publishes the raw
measurement; when the sample is strictly greater than the persisted alarm
threshold, the reserved alarm sentinel is published first, so the published
sequence is sentinel-then-raw above threshold and raw only at or below it. -/
theorem C1_measurement_publishes (s : MoistState) (m : Nat) :
    publishedLevels (finish_measurement s m) =
      if m > s.alarm_level then [MOIST_ALARM_FLAG, m] else [m] := by
  by_cases h : m > s.alarm_level <;>
    simp [finish_measurement, publishedLevels, publish_moisture, update_level, h]

/-- C1 counterexample: at threshold 0x7FFF a sample of 0x8000 is strictly
greater, yet the publish sequence is the sentinel followed by the raw
measurement — the raw value is published too, contradicting the claim that
only the sentinel is published above threshold. -/
theorem C1_counterexample :
    (0x7FFF : Nat) < 0x8000 ∧
    publishedLevels
        (finish_measurement { moistInit with alarm_level := 0x7FFF } 0x8000) =
      [0x7FFF, 0x8000] := by
  decide

/-- C2: `max_lux` is `sizeof(lux_to_alarm_table) - 1 = 21`, a byte count,
not the last valid element index 10.  A requested lux index of 11 (the first
index at or beyond the table length) is not saturated at all and indexes
past the table; a large index like 100 is saturated to 21, also past the
table.  In both cases the table access is out of bounds, so
`_handle_client_request` has no defined result. -/
theorem C2_saturation_overruns_table :
    max_lux = 21 ∧
    lux_to_alarm_table.length = 11 ∧
    saturated_lux 11 = 11 ∧
    lux_to_alarm_table[saturated_lux 11]? = none ∧
    saturated_lux 100 = 21 ∧
    lux_to_alarm_table[saturated_lux 100]? = none ∧
    handle_client_request moistInit RequestKind.level 11 0 = none := by
  decide

/-- C3 (amended): for an in-table threshold-set request that demands a
synchronous response, the handler first installs the table-mapped threshold
via `_set_alarm_level` and then responds with `settings.alarm_level` read
after that install, i.e. the response carries the newly requested (pending,
not yet persisted) threshold; no response carrying any other value is sent. -/
theorem C3_response_carries_new_threshold (s : MoistState) (lux flags : Nat)
    (hlux : lux < lux_to_alarm_table.length)
    (hflag : flags &&& MESH_REQUEST_FLAG_RESPONSE_REQUIRED ≠ 0) :
    ∃ s1 acts,
      handle_client_request s RequestKind.level lux flags = some (s1, acts) ∧
      s1.alarm_level = lux_to_alarm_table.getD lux 0 ∧
      Action.modelResponse s1.alarm_level ∈ acts ∧
      ∀ v, Action.modelResponse v ∈ acts → v = s1.alarm_level := by
  have h11 : lux < 11 := by simpa [lux_to_alarm_table] using hlux
  have hflag2 : lux ≠ MOIST_ALARM_FLAG := by
    simp only [MOIST_ALARM_FLAG]; omega
  have hsat : saturated_lux lux = lux := by
    simp only [saturated_lux, max_lux, lux_table_sizeof_bytes, lux_to_alarm_table]
    norm_num
    omega
  have hget : lux_to_alarm_table[saturated_lux lux]? =
      some (lux_to_alarm_table.getD lux 0) := by
    rw [hsat, List.getElem?_eq_getElem hlux, List.getD_eq_getElem?_getD,
      List.getElem?_eq_getElem hlux]
    rfl
  refine ⟨(set_alarm_level s (lux_to_alarm_table.getD lux 0)).1,
    (set_alarm_level s (lux_to_alarm_table.getD lux 0)).2 ++
      [Action.modelResponse
        (set_alarm_level s (lux_to_alarm_table.getD lux 0)).1.alarm_level],
    ?_, ?_, ?_, ?_⟩
  · simp only [handle_client_request, hget]
    simp [hflag, hflag2]
  · exact set_alarm_level_level s _
  · simp
  · intro v hv
    rcases List.mem_append.1 hv with hv | hv
    · exact absurd hv (fun h => set_alarm_level_no_response s _ v h)
    · simpa using hv

/-- C3 counterexample: from the default committed threshold 0x7FFF, a
response-required request for lux index 0 produces exactly one response and
it carries the freshly installed table value 0x0F00, not the previously
committed 0x7FFF. -/
theorem C3_counterexample :
    evtActions { moistInit with alarm_level := 0x7FFF } meshconn_states.init
        (MoistEvt.client_request RequestKind.level 0 1) =
      [Action.lcdWrite LcdRow.action, Action.lcdWrite LcdRow.action,
       Action.armTimer TOAST_COUNTS TOAST_TIMER_HANDLE true,
       Action.armTimer SAVE_COUNTS SAVE_TIMER_HANDLE true,
       Action.modelResponse 0x0F00] ∧
    (0x0F00 : Nat) < 0x7FFF := by
  decide

/-- C5: `_set_alarm_level` with the currently stored value is a complete
no-op: the settings are unchanged and no action — in particular no arm of
the debounced save timer — is performed. -/
theorem C5_noop_write (s : MoistState) (lvl : Nat) (h : lvl = s.alarm_level) :
    set_alarm_level s lvl = (s, []) := by
  simp [set_alarm_level, h]

/-- C5 witness: a concrete no-op write. -/
theorem C5_noop_write_witness :
    set_alarm_level
        { alarm_level := 5, disable_deep_sleep := false, ready := true, conn_count := 0 } 5 =
      ({ alarm_level := 5, disable_deep_sleep := false, ready := true, conn_count := 0 }, []) :=
  C5_noop_write _ _ rfl

/-- C3 witness: the amended response property at a concrete request (lux
index 2, response flag set, starting from the default threshold). -/
theorem C3_response_witness :
    (2 < lux_to_alarm_table.length ∧ (1 : Nat) &&& MESH_REQUEST_FLAG_RESPONSE_REQUIRED ≠ 0) ∧
    ∃ s1 acts,
      handle_client_request { moistInit with alarm_level := 0x7FFF }
          RequestKind.level 2 1 = some (s1, acts) ∧
      s1.alarm_level = lux_to_alarm_table.getD 2 0 ∧
      Action.modelResponse s1.alarm_level ∈ acts ∧
      ∀ v, Action.modelResponse v ∈ acts → v = s1.alarm_level :=
  ⟨⟨by decide, by decide⟩,
   C3_response_carries_new_threshold _ 2 1 (by decide) (by decide)⟩

/-- C6: a friendship-establishment failure arms the befriend-retry timer
exactly once with the fixed 19 s backoff and makes no immediate
establishment request; the retry-timer expiry makes exactly one
establishment request and arms no further retry timer; a friendship
termination makes exactly one immediate establishment request and arms no
retry timer. -/
theorem C6_friendship_retry_policy (s : MoistState) (m : meshconn_states) :
    (evtActions s m MoistEvt.friendship_failed).countP isFriendReq = 0 ∧
    (evtActions s m MoistEvt.friendship_failed).count
        (Action.armTimer BEFRIEND_COUNTS BEFRIEND_TIMER_HANDLE true) = 1 ∧
    (evtActions s m MoistEvt.friendship_failed).countP isBefriendArm = 1 ∧
    (evtActions s m (MoistEvt.soft_timer BEFRIEND_TIMER_HANDLE)).countP isFriendReq = 1 ∧
    (evtActions s m (MoistEvt.soft_timer BEFRIEND_TIMER_HANDLE)).countP isBefriendArm = 0 ∧
    (evtActions s m MoistEvt.friendship_terminated).countP isFriendReq = 1 ∧
    (evtActions s m MoistEvt.friendship_terminated).countP isBefriendArm = 0 :=
  ⟨rfl, rfl, rfl, rfl, rfl, rfl, rfl⟩

/-- C7: on the boot signal, the stored record is adopted exactly when a
record of exactly 2 bytes was read back; a record of any other length, or a
failed load, installs the compiled-in default 0x7FFF and performs exactly
one immediate flash save of the defaults. -/
theorem C7_boot_settings_load (s : MoistState) :
    (∀ bs : List Nat, bs.length = 2 →
       moistsrv_handle_events s meshconn_states.init (bootEvt (some bs)) =
         some ({ s with alarm_level := decode_le16 bs }, [Action.meshServerInit])) ∧
    (∀ bs : List Nat, bs.length ≠ 2 →
       moistsrv_handle_events s meshconn_states.init (bootEvt (some bs)) =
         some ({ s with alarm_level := DEFAULT_ALARM_LEVEL },
               [Action.flashSave ALARM_FLASH_KEY DEFAULT_ALARM_LEVEL,
                Action.meshServerInit])) ∧
    moistsrv_handle_events s meshconn_states.init (bootEvt none) =
      some ({ s with alarm_level := DEFAULT_ALARM_LEVEL },
            [Action.flashSave ALARM_FLASH_KEY DEFAULT_ALARM_LEVEL,
             Action.meshServerInit]) := by
  refine ⟨?_, ?_, ?_⟩
  · intro bs h
    simp [moistsrv_handle_events, bootEvt, load_settings, save_settings, h]
  · intro bs h
    simp [moistsrv_handle_events, bootEvt, load_settings, save_settings, h]
  · simp [moistsrv_handle_events, bootEvt, load_settings, save_settings]

/-- C7 witness: a 2-byte record `[0x34, 0x0B]` loads as 0x0B34 = 2868 with
no save; a 1-byte record and an absent record both install and save the
default. -/
theorem C7_boot_settings_witness :
    (([52, 11] : List Nat).length = 2 ∧
     moistsrv_handle_events moistInit meshconn_states.init (bootEvt (some [52, 11])) =
       some ({ moistInit with alarm_level := decode_le16 [52, 11] },
             [Action.meshServerInit])) ∧
    (([7] : List Nat).length ≠ 2 ∧
     moistsrv_handle_events moistInit meshconn_states.init (bootEvt (some [7])) =
       some ({ moistInit with alarm_level := DEFAULT_ALARM_LEVEL },
             [Action.flashSave ALARM_FLASH_KEY DEFAULT_ALARM_LEVEL,
              Action.meshServerInit])) ∧
    moistsrv_handle_events moistInit meshconn_states.init (bootEvt none) =
      some ({ moistInit with alarm_level := DEFAULT_ALARM_LEVEL },
            [Action.flashSave ALARM_FLASH_KEY DEFAULT_ALARM_LEVEL,
             Action.meshServerInit]) :=
  ⟨⟨rfl, (C7_boot_settings_load moistInit).1 [52, 11] rfl⟩,
   ⟨by decide, (C7_boot_settings_load moistInit).2.1 [7] (by decide)⟩,
   (C7_boot_settings_load moistInit).2.2⟩

/-- C8: a blink request for N = 3 (delivered as the last OOB data byte)
produces exactly three on/off pulse pairs, each phase armed with the short
9830-count pause, followed by one long 68812-count inter-word gap, with the
machine primed to repeat the 3-pulse pattern; a request for N = 0 turns the
LED on continuously with the machine inactive, so subsequent blink-timer
expiries change nothing; and any blink-timer expiry while the sequence is
inactive performs no action at all. -/
theorem C8_blink_behavior :
    (runMeshconnActions meshconnInit
        (MeshEvt.display_output_oob MESH_PROV_OOB_DISPLY_BLINK [3] ::
          List.replicate 5 (MeshEvt.soft_timer BLINK_TIMER_HANDLE)) =
      [Action.ledOn, Action.armTimer BLINK_ON_COUNTS BLINK_TIMER_HANDLE true,
       Action.ledOff, Action.armTimer BLINK_OFF_COUNTS BLINK_TIMER_HANDLE true,
       Action.ledOn, Action.armTimer BLINK_ON_COUNTS BLINK_TIMER_HANDLE true,
       Action.ledOff, Action.armTimer BLINK_OFF_COUNTS BLINK_TIMER_HANDLE true,
       Action.ledOn, Action.armTimer BLINK_ON_COUNTS BLINK_TIMER_HANDLE true,
       Action.ledOff, Action.armTimer BLINK_GAP_COUNTS BLINK_TIMER_HANDLE true]) ∧
    (runMeshconn meshconnInit
        (MeshEvt.display_output_oob MESH_PROV_OOB_DISPLY_BLINK [3] ::
          List.replicate 5 (MeshEvt.soft_timer BLINK_TIMER_HANDLE)) =
      { blink_count := 3, blinks_remaining := 3, blink_state := false,
        blinking := true, state := .init, conn_handle := 0 }) ∧
    (runMeshconnActions meshconnInit
        (MeshEvt.display_output_oob MESH_PROV_OOB_DISPLY_BLINK [0] ::
          List.replicate 2 (MeshEvt.soft_timer BLINK_TIMER_HANDLE)) =
      [Action.ledOn]) ∧
    ∀ s : MeshconnState, s.blinking = false →
      meshconn_handle_events s (MeshEvt.soft_timer BLINK_TIMER_HANDLE) = (s, []) := by
  refine ⟨by decide, by decide, by decide, ?_⟩
  intro s h
  simp [meshconn_handle_events, handle_blinking, h, BLINK_TIMER_HANDLE]

/-- C8 witness: a blink-timer expiry in the freshly initialized (inactive)
state is silently discarded. -/
theorem C8_blink_witness :
    meshconnInit.blinking = false ∧
    meshconn_handle_events meshconnInit (MeshEvt.soft_timer BLINK_TIMER_HANDLE) =
      (meshconnInit, []) :=
  ⟨rfl, C8_blink_behavior.2.2.2 meshconnInit rfl⟩

/-- C4 (amended): along any physically valid interleaving of
connection-opened and connection-closed events (no close without a matching open, at most
255 simultaneously open), the `uint8_t` connection count exactly tracks
opens minus closes — it never wraps below zero — and the low-power-mode
request is emitted at an event exactly when that event is a close that
returns the count to zero while the module is `ready` (models registered)
and the manual stay-awake override is not set. -/
theorem C4_conn_count_and_lpn (s0 : MoistState) (tr : List ConnEvt)
    (hc : s0.conn_count ≤ 255) (hv : validConn s0.conn_count tr = true) :
    (runConn s0 tr).conn_count + countCloses tr = s0.conn_count + countOpens tr ∧
    ∀ t ∈ runConnLog s0 tr,
      Action.lpnInit ∈ t.2.2 ↔
        (t.1 = ConnEvt.closed ∧ t.2.1.conn_count = 0 ∧
         s0.ready = true ∧ s0.disable_deep_sleep = false) := by
  induction tr generalizing s0 with
  | nil => simp [runConn, runConnLog, countOpens, countCloses]
  | cons e rest ih =>
      cases e with
      | opened =>
          rw [validConn, Bool.and_eq_true, decide_eq_true_eq] at hv
          have hcount := stepConn_opened_count s0 hv.1
          have hready := stepConn_ready s0 ConnEvt.opened
          have hdds := stepConn_dds s0 ConnEvt.opened
          have hc1 : (stepConn s0 ConnEvt.opened).1.conn_count ≤ 255 := by omega
          have hv1 : validConn (stepConn s0 ConnEvt.opened).1.conn_count rest = true := by
            rw [hcount]; exact hv.2
          obtain ⟨ihc, ihl⟩ := ih _ hc1 hv1
          constructor
          · have hrun : runConn s0 (ConnEvt.opened :: rest) =
                runConn (stepConn s0 ConnEvt.opened).1 rest := rfl
            have e1 : countOpens (ConnEvt.opened :: rest) = countOpens rest + 1 := by
              simp [countOpens]
            have e2 : countCloses (ConnEvt.opened :: rest) = countCloses rest := by
              simp [countCloses]
            rw [hrun, e1, e2]
            omega
          · intro t ht
            rw [runConnLog] at ht
            rcases List.mem_cons.1 ht with ht | ht
            · subst ht
              rw [stepConn_lpn_iff]
            · rw [ihl t ht, hready, hdds]
      | closed =>
          rw [validConn, Bool.and_eq_true, decide_eq_true_eq] at hv
          have hcount := stepConn_closed_count s0 hv.1 hc
          have hready := stepConn_ready s0 ConnEvt.closed
          have hdds := stepConn_dds s0 ConnEvt.closed
          have hc1 : (stepConn s0 ConnEvt.closed).1.conn_count ≤ 255 := by omega
          have hv1 : validConn (stepConn s0 ConnEvt.closed).1.conn_count rest = true := by
            rw [hcount]; exact hv.2
          obtain ⟨ihc, ihl⟩ := ih _ hc1 hv1
          constructor
          · have hrun : runConn s0 (ConnEvt.closed :: rest) =
                runConn (stepConn s0 ConnEvt.closed).1 rest := rfl
            have e1 : countOpens (ConnEvt.closed :: rest) = countOpens rest := by
              simp [countOpens]
            have e2 : countCloses (ConnEvt.closed :: rest) = countCloses rest + 1 := by
              simp [countCloses]
            rw [hrun, e1, e2]
            omega
          · intro t ht
            rw [runConnLog] at ht
            rcases List.mem_cons.1 ht with ht | ht
            · subst ht
              exact stepConn_lpn_iff s0 ConnEvt.closed
            · rw [ihl t ht, hready, hdds]

/-- C4 counterexample: before the models are registered (`ready = false`,
e.g. during provisioning over GATT), an open followed by a close returns the
count to zero with no stay-awake override set, yet no low-power-mode request
is emitted — refuting the claimed "if and only if" that ignores readiness. -/
theorem C4_counterexample :
    (runConn moistInit [ConnEvt.opened, ConnEvt.closed]).conn_count = 0 ∧
    moistInit.disable_deep_sleep = false ∧
    (connActions moistInit [ConnEvt.opened, ConnEvt.closed]).countP isLpnRequest = 0 := by
  decide

/-- C4 witness: the amended invariant at a concrete ready-state run. -/
theorem C4_conn_count_witness :
    (({ moistInit with ready := true } : MoistState).conn_count ≤ 255 ∧
     validConn ({ moistInit with ready := true } : MoistState).conn_count
       [ConnEvt.opened, ConnEvt.closed] = true) ∧
    ((runConn { moistInit with ready := true } [ConnEvt.opened, ConnEvt.closed]).conn_count
        + countCloses [ConnEvt.opened, ConnEvt.closed] =
      ({ moistInit with ready := true } : MoistState).conn_count
        + countOpens [ConnEvt.opened, ConnEvt.closed] ∧
     ∀ t ∈ runConnLog { moistInit with ready := true } [ConnEvt.opened, ConnEvt.closed],
       Action.lpnInit ∈ t.2.2 ↔
         (t.1 = ConnEvt.closed ∧ t.2.1.conn_count = 0 ∧
          ({ moistInit with ready := true } : MoistState).ready = true ∧
          ({ moistInit with ready := true } : MoistState).disable_deep_sleep = false)) :=
  ⟨⟨by decide, by decide⟩,
   C4_conn_count_and_lpn { moistInit with ready := true }
     [ConnEvt.opened, ConnEvt.closed] (by decide) (by decide)⟩

/-- C9: under the stack's event-delivery contract (`validIncoming`), every
event either leaves the connectivity state unchanged, or moves it strictly
forward along the happy path Init → Booted → Unprovisioned → Provisioning →
NetworkReady, or is the single back-edge Provisioning → Unprovisioned taken
on provisioning failure, or is the reset to Unprovisioned performed by the
remote factory reset; no other transition occurs (in particular `error` is
never entered). -/
theorem C9_state_transitions (s : MeshconnState) (e : MeshEvt)
    (hv : validIncoming s.state e = true) :
    (meshconn_handle_events s e).1.state = s.state ∨
    (happy_ord s.state < happy_ord (meshconn_handle_events s e).1.state ∧
     happy_ord (meshconn_handle_events s e).1.state ≤ 4) ∨
    (s.state = meshconn_states.provisioning ∧
     (meshconn_handle_events s e).1.state = meshconn_states.unprovisioned ∧
     e = MeshEvt.provisioning_failed) ∨
    ((meshconn_handle_events s e).1.state = meshconn_states.unprovisioned ∧
     e = MeshEvt.node_reset) := by
  cases e with
  | system_boot b =>
      have hs : s.state = meshconn_states.init := by
        simpa [validIncoming] using hv
      cases b
      · right; left
        have hb : (meshconn_handle_events s (MeshEvt.system_boot false)).1.state =
            meshconn_states.booted := rfl
        rw [hb, hs]
        decide
      · right; left
        have hb : (meshconn_handle_events s (MeshEvt.system_boot true)).1.state =
            meshconn_states.unprovisioned := rfl
        rw [hb, hs]
        decide
  | node_initialized p =>
      have hs : s.state = meshconn_states.booted := by
        simpa [validIncoming] using hv
      cases p
      · right; left
        have hb : (meshconn_handle_events s (MeshEvt.node_initialized false)).1.state =
            meshconn_states.unprovisioned := rfl
        rw [hb, hs]
        decide
      · right; left
        have hb : (meshconn_handle_events s (MeshEvt.node_initialized true)).1.state =
            meshconn_states.network_ready := rfl
        rw [hb, hs]
        decide
  | provisioning_started =>
      have hs : s.state = meshconn_states.unprovisioned := by
        simpa [validIncoming] using hv
      right; left
      have hb : (meshconn_handle_events s MeshEvt.provisioning_started).1.state =
          meshconn_states.provisioning := rfl
      rw [hb, hs]
      decide
  | static_oob_request => left; rfl
  | display_output_oob a d =>
      left
      simp only [meshconn_handle_events]
      split
      · rw [start_blinking_state]
      · split <;> rfl
  | provisioning_failed =>
      have hs : s.state = meshconn_states.provisioning := by
        simpa [validIncoming] using hv
      exact Or.inr (Or.inr (Or.inl ⟨hs, rfl, rfl⟩))
  | provisioned =>
      have hs : s.state = meshconn_states.provisioning := by
        simpa [validIncoming] using hv
      right; left
      have hb : (meshconn_handle_events s MeshEvt.provisioned).1.state =
          meshconn_states.network_ready := rfl
      rw [hb, hs]
      decide
  | node_reset => exact Or.inr (Or.inr (Or.inr ⟨rfl, rfl⟩))
  | soft_timer h =>
      left
      simp only [meshconn_handle_events]
      split
      · rw [handle_blinking_state]
      · split <;> rfl
  | external_signal b nr => left; rfl
  | connection_opened h => left; rfl
  | connection_closed => left; rfl

/-- C9 witness: the provisioning-failure back-edge at a concrete state. -/
theorem C9_state_transitions_witness :
    validIncoming ({ meshconnInit with state := meshconn_states.provisioning } :
        MeshconnState).state MeshEvt.provisioning_failed = true ∧
    ((meshconn_handle_events { meshconnInit with state := meshconn_states.provisioning }
        MeshEvt.provisioning_failed).1.state =
      ({ meshconnInit with state := meshconn_states.provisioning } : MeshconnState).state ∨
     (happy_ord ({ meshconnInit with state := meshconn_states.provisioning } :
          MeshconnState).state <
        happy_ord (meshconn_handle_events
          { meshconnInit with state := meshconn_states.provisioning }
          MeshEvt.provisioning_failed).1.state ∧
      happy_ord (meshconn_handle_events
          { meshconnInit with state := meshconn_states.provisioning }
          MeshEvt.provisioning_failed).1.state ≤ 4) ∨
     (({ meshconnInit with state := meshconn_states.provisioning } :
          MeshconnState).state = meshconn_states.provisioning ∧
      (meshconn_handle_events { meshconnInit with state := meshconn_states.provisioning }
          MeshEvt.provisioning_failed).1.state = meshconn_states.unprovisioned ∧
      MeshEvt.provisioning_failed = MeshEvt.provisioning_failed) ∨
     ((meshconn_handle_events { meshconnInit with state := meshconn_states.provisioning }
          MeshEvt.provisioning_failed).1.state = meshconn_states.unprovisioned ∧
      MeshEvt.provisioning_failed = MeshEvt.node_reset)) :=
  ⟨by decide,
   C9_state_transitions { meshconnInit with state := meshconn_states.provisioning }
     MeshEvt.provisioning_failed (by decide)⟩

/-- The connection-handle slot stays strictly below the 0xFF sentinel along
any trace with no connection-closed event and only ordinary handles. -/
theorem runMeshconn_handle_below_sentinel (s : MeshconnState) (tr : List MeshEvt)
    (hs : s.conn_handle < 255) (h1 : noCloseEvt tr = true) (h2 : handlesOk tr = true) :
    (runMeshconn s tr).conn_handle < 255 := by
  induction tr generalizing s with
  | nil => simpa [runMeshconn] using hs
  | cons e rest ih =>
      rw [noCloseEvt, List.all_cons, Bool.and_eq_true] at h1
      rw [handlesOk, List.all_cons, Bool.and_eq_true] at h2
      have hrun : runMeshconn s (e :: rest) =
          runMeshconn (meshconn_handle_events s e).1 rest := rfl
      rw [hrun]
      refine ih _ ?_ h1.2 h2.2
      rw [meshconn_conn_handle_after]
      cases e with
      | connection_opened h => simpa using h2.1
      | connection_closed => simp at h1
      | _ => exact hs

/-- C10: the connection-handle slot is zero-initialized at boot, so before
any connection event it holds 0, not the 0xFF "no connection" sentinel;
consequently a remote factory reset arriving in the initial state issues a
connection-close request on handle 0 rather than skipping the close; and
the slot only ever reaches 0xFF through a connection-closed event — along
any trace without one (and with ordinary sub-0xFF handles from the stack)
it stays below the sentinel. -/
theorem C10_conn_handle_sentinel :
    meshconnInit.conn_handle = 0 ∧
    Action.closeConnection 0 ∈ (meshconn_handle_events meshconnInit MeshEvt.node_reset).2 ∧
    ∀ tr : List MeshEvt, noCloseEvt tr = true → handlesOk tr = true →
      (runMeshconn meshconnInit tr).conn_handle < 255 := by
  refine ⟨rfl, by decide, ?_⟩
  intro tr h1 h2
  exact runMeshconn_handle_below_sentinel meshconnInit tr (by decide) h1 h2

/-- C10 witness: a concrete no-close trace (boot, then a connection opened
with handle 7) leaves the slot below the sentinel. -/
theorem C10_conn_handle_witness :
    noCloseEvt [MeshEvt.system_boot false, MeshEvt.connection_opened 7] = true ∧
    handlesOk [MeshEvt.system_boot false, MeshEvt.connection_opened 7] = true ∧
    (runMeshconn meshconnInit
        [MeshEvt.system_boot false, MeshEvt.connection_opened 7]).conn_handle < 255 :=
  ⟨by decide, by decide,
   C10_conn_handle_sentinel.2.2
     [MeshEvt.system_boot false, MeshEvt.connection_opened 7] (by decide) (by decide)⟩

end MoistureSensor
